import Mathlib

/-!
Shallow embedding of `cqlengine/functions.py` (classes `QueryValue`,
`BaseQueryFunction`, `MinTimeUUID`, `MaxTimeUUID`, `Token`) and proofs about
the query-function binding behaviour described in the specification.

Modelling conventions:
* A Python `datetime` is modelled by its naive (wall-clock) offset from
  1970-01-01T00:00:00 in integer microseconds, together with an optional
  fixed-offset `tzinfo` (UTC offset in whole seconds; `none` = naive).
  Python `datetime` supports microsecond resolution, so integer microseconds
  are exact; `timedelta.total_seconds()` is modelled exactly as a rational.
* Python `long(x)` truncates toward zero: `pyLong`.
* The binding context (a Python `dict` with string keys) is modelled as a
  function `String → Option PyVal`; item assignment is `ctxInsert`.
* A column object is external to this module; the code only calls its
  `to_database` method, so a column is modelled as that single function.
* Python errors raised by the modelled code paths: the explicit
  `ValidationError` raised by the `MinTimeUUID`/`MaxTimeUUID` constructors
  (the spec calls it `InvalidArgument`), and the `TypeError` that
  `Token.update_context` hits when `zip` is given `None` or when
  `self.context_id` is `None` and arithmetic on it is attempted.
-/

/-- A Python `datetime`: naive microseconds since 1970-01-01T00:00:00 plus an
optional fixed UTC offset in seconds (`none` = naive datetime). -/
structure Datetime where
  naiveMicros : Int
  tz : Option Int
deriving DecidableEq

/-- Python values that appear in this module: payloads, serialized context
entries, raw partition-key components. -/
inductive PyVal where
  | int : Int → PyVal
  | str : String → PyVal
  | datetime : Datetime → PyVal
  | list : List PyVal → PyVal
  | tuple : List PyVal → PyVal

/-- `isinstance(v, datetime)`. -/
def PyVal.isDatetime : PyVal → Bool
  | .datetime _ => true
  | _ => false

/-- `isinstance(v, (list, tuple))`, the check in `Token.__init__`. -/
def PyVal.isListOrTuple : PyVal → Bool
  | .list _ => true
  | .tuple _ => true
  | _ => false

/-- Errors raised by the modelled code paths. -/
inductive PyErr where
  | validationError : PyErr
  | typeError : PyErr
deriving DecidableEq

/-- A column descriptor, as seen by this module: the code only calls
`col.to_database(val)` (the spec's `serialize`). -/
structure Column where
  to_database : PyVal → PyVal

/-- The binding context: a Python `dict` mapping string keys to values. -/
def Ctx : Type := String → Option PyVal

/-- `ctx[k] = v` on a Python dict. -/
def ctxInsert (ctx : Ctx) (k : String) (v : PyVal) : Ctx :=
  fun s => if s = k then some v else ctx s

/-- The empty dict. -/
def ctxEmpty : Ctx := fun _ => none

/-- Python `str(x)` for `x` either an int or `None` (the possible states of
`self.context_id`). -/
def pyStr : Option Int → String
  | some i => toString i
  | none => "None"

/-- The UTC instant of a datetime, in microseconds: aware datetimes compare
and subtract by their UTC equivalents; a naive datetime is its own reading. -/
def Datetime.utcMicros (d : Datetime) : Int :=
  d.naiveMicros - (d.tz.getD 0) * 1000000

/-- Python `a - b` on two datetimes of equal awareness: the `timedelta`,
modelled by its exact microsecond count. -/
def dtSub (a b : Datetime) : Int :=
  a.utcMicros - b.utcMicros

/-- `timedelta.total_seconds()`: exact value, as a rational. -/
def total_seconds (micros : Int) : ℚ :=
  (micros : ℚ) / 1000000

/-- Python 2 `long(x)`: truncation toward zero. -/
def pyLong (x : ℚ) : Int :=
  if 0 ≤ x then ⌊x⌋ else -⌊-x⌋

/-- `epoch.tzinfo.utcoffset(epoch).total_seconds() if epoch.tzinfo else 0`,
for a fixed-offset `tzinfo`. -/
def tzOffsetSeconds : Option Int → ℚ
  | some o => (o : ℚ)
  | none => 0

/-- class QueryValue: `self.value`, `self.context_id = None`. -/
structure QueryValue where
  value : PyVal
  context_id : Option Int

/-- `QueryValue.__init__`. -/
def QueryValue.init (value : PyVal) : QueryValue :=
  { value := value, context_id := none }

/-- `QueryValue.__unicode__`: `':{}'.format(self.context_id)`. -/
def QueryValue.render (q : QueryValue) : String :=
  ":" ++ pyStr q.context_id

/-- `QueryValue.set_context_id`. -/
def QueryValue.set_context_id (q : QueryValue) (ctx_id : Int) : QueryValue :=
  { q with context_id := some ctx_id }

/-- `QueryValue.get_context_size`. -/
def QueryValue.get_context_size (_ : QueryValue) : Nat :=
  1

/-- `QueryValue.update_context`: `ctx[str(self.context_id)] = self.value`. -/
def QueryValue.update_context (q : QueryValue) (ctx : Ctx) : Ctx :=
  ctxInsert ctx (pyStr q.context_id) q.value

/-- class MinTimeUUID: after the `isinstance(value, datetime)` check passed,
`self.value` holds a datetime. -/
structure MinTimeUUID where
  value : Datetime
  context_id : Option Int

/-- `MinTimeUUID.__init__`: raises `ValidationError` unless the argument is a
`datetime` instance. -/
def MinTimeUUID.init (value : PyVal) : Except PyErr MinTimeUUID :=
  match value with
  | .datetime d => .ok { value := d, context_id := none }
  | _ => .error .validationError

/-- `MinTimeUUID` rendering: `'MinTimeUUID(:{})'.format(self.context_id)`. -/
def MinTimeUUID.render (f : MinTimeUUID) : String :=
  "MinTimeUUID(:" ++ pyStr f.context_id ++ ")"

/-- `MinTimeUUID.set_context_id` (inherited from `QueryValue`). -/
def MinTimeUUID.set_context_id (f : MinTimeUUID) (ctx_id : Int) : MinTimeUUID :=
  { f with context_id := some ctx_id }

/-- `MinTimeUUID.get_context_size` (inherited from `QueryValue`). -/
def MinTimeUUID.get_context_size (_ : MinTimeUUID) : Nat :=
  1

/-- `MinTimeUUID.update_context`:
`epoch = datetime(1970, 1, 1, tzinfo=self.value.tzinfo)`;
`offset = epoch.tzinfo.utcoffset(epoch).total_seconds() if epoch.tzinfo else 0`;
`ctx[str(self.context_id)] = long(((self.value - epoch).total_seconds() - offset) * 1000)`. -/
def MinTimeUUID.update_context (f : MinTimeUUID) (ctx : Ctx) : Ctx :=
  let epoch : Datetime := { naiveMicros := 0, tz := f.value.tz }
  let offset : ℚ := tzOffsetSeconds epoch.tz
  ctxInsert ctx (pyStr f.context_id)
    (.int (pyLong ((total_seconds (dtSub f.value epoch) - offset) * 1000)))

/-- class MaxTimeUUID (same body as `MinTimeUUID.__init__`). -/
structure MaxTimeUUID where
  value : Datetime
  context_id : Option Int

/-- `MaxTimeUUID.__init__`: raises `ValidationError` unless the argument is a
`datetime` instance. -/
def MaxTimeUUID.init (value : PyVal) : Except PyErr MaxTimeUUID :=
  match value with
  | .datetime d => .ok { value := d, context_id := none }
  | _ => .error .validationError

/-- `MaxTimeUUID` rendering: `'MaxTimeUUID(:{})'.format(self.context_id)`. -/
def MaxTimeUUID.render (f : MaxTimeUUID) : String :=
  "MaxTimeUUID(:" ++ pyStr f.context_id ++ ")"

/-- `MaxTimeUUID.set_context_id` (inherited from `QueryValue`). -/
def MaxTimeUUID.set_context_id (f : MaxTimeUUID) (ctx_id : Int) : MaxTimeUUID :=
  { f with context_id := some ctx_id }

/-- `MaxTimeUUID.get_context_size` (inherited from `QueryValue`). -/
def MaxTimeUUID.get_context_size (_ : MaxTimeUUID) : Nat :=
  1

/-- `MaxTimeUUID.update_context`: identical body to
`MinTimeUUID.update_context` in the source. -/
def MaxTimeUUID.update_context (f : MaxTimeUUID) (ctx : Ctx) : Ctx :=
  let epoch : Datetime := { naiveMicros := 0, tz := f.value.tz }
  let offset : ℚ := tzOffsetSeconds epoch.tz
  ctxInsert ctx (pyStr f.context_id)
    (.int (pyLong ((total_seconds (dtSub f.value epoch) - offset) * 1000)))

/-- class Token: `self.value` (the normalized `values` tuple),
`self._columns = None`, inherited `self.context_id = None`. -/
structure Token where
  value : List PyVal
  _columns : Option (List Column)
  context_id : Option Int

/-- `Token.__init__(*values)`: `if len(values) == 1 and
isinstance(values[0], (list, tuple)): values = values[0]`. The argument list
models the `values` tuple of the variadic call. -/
def Token.init (values : List PyVal) : Token :=
  let values := match values with
    | [PyVal.list xs] => xs
    | [PyVal.tuple xs] => xs
    | _ => values
  { value := values, _columns := none, context_id := none }

/-- `Token.set_columns`. -/
def Token.set_columns (t : Token) (columns : List Column) : Token :=
  { t with _columns := some columns }

/-- `Token.set_context_id` (inherited from `QueryValue`). -/
def Token.set_context_id (t : Token) (ctx_id : Int) : Token :=
  { t with context_id := some ctx_id }

/-- `Token.get_context_size`: `len(self.value)`. -/
def Token.get_context_size (t : Token) : Nat :=
  t.value.length

/-- `Token.__unicode__`:
`', '.join(':{}'.format(self.context_id + i) for i in range(self.get_context_size()))`
wrapped in `token(...)`. If `self.context_id` is `None` and the range is
nonempty, `None + i` raises `TypeError`; with an empty range the generator
never evaluates it and the result is `token()`. -/
def Token.render (t : Token) : Except PyErr String :=
  match t.context_id, t.value.length with
  | _, 0 => .ok "token()"
  | none, _ + 1 => .error .typeError
  | some c, n + 1 => .ok ("token(" ++ String.intercalate ", "
      ((List.range (n + 1)).map fun i => ":" ++ toString (c + (i : Int))) ++ ")")

/-- The loop body of `Token.update_context`: successive dict assignments
`ctx[str(c + i)] = col.to_database(val)` over the zipped pairs, with the
running key index made explicit (key `c` for the head, then `c + 1`, ...). -/
def Token.writeLoop (c : Int) : List (Column × PyVal) → Ctx → Ctx
  | [], ctx => ctx
  | (col, v) :: rest, ctx =>
      Token.writeLoop (c + 1) rest (ctxInsert ctx (toString c) (col.to_database v))

/-- `Token.update_context`:
`for i, (col, val) in enumerate(zip(self._columns, self.value)):
ctx[str(self.context_id + i)] = col.to_database(val)`.
`zip(None, _)` raises `TypeError`; if the zip is nonempty and
`self.context_id` is `None`, `str(None + 0)` raises `TypeError` before any
dict write. No length check of any kind is performed: `zip` silently
truncates to the shorter of the two sequences. -/
def Token.update_context (t : Token) (ctx : Ctx) : Except PyErr Ctx :=
  match t._columns with
  | none => .error .typeError
  | some cols =>
    match t.context_id, cols.zip t.value with
    | _, [] => .ok ctx
    | none, _ :: _ => .error .typeError
    | some c, pairs => .ok (Token.writeLoop c pairs ctx)

/-- A trivial column descriptor whose `to_database` is the identity; used in
concrete instantiations. -/
def idColumn : Column :=
  ⟨fun v => v⟩

/-- Key `s` is not the stringified form of any integer id in
`[c, c + size)` — the complement of the key window a bindable value with
starting id `c` and context size `size` may touch. -/
def outsideKeys (c : Int) (size : Nat) (s : String) : Prop :=
  ∀ i : Int, c ≤ i → i < c + (size : Int) → s ≠ toString i

/-- The stored value as claim C1 words it: truncate
`(inputTimestamp - epoch).totalSeconds() - offsetSeconds` toward zero FIRST,
then multiply the integer by 1000. Stated from the claim, for comparison
with what the code computes. -/
def claimedMillisecondsC1 (d : Datetime) : Int :=
  pyLong (total_seconds (dtSub d { naiveMicros := 0, tz := d.tz })
    - tzOffsetSeconds d.tz) * 1000

/-- The payload formula claim C4 states: `round(t.secondsSinceEpoch() * 1000)`
(ordinary rounding), for a naive timestamp whose seconds since the epoch are
`naiveMicros / 10^6`. Stated from the claim, for comparison with the code. -/
def claimedPayloadC4 (d : Datetime) : Int :=
  round (total_seconds d.naiveMicros * 1000)

example : Token.init [.int 1, .int 2] = ⟨[.int 1, .int 2], none, none⟩ := rfl
example : Token.init [.list [.int 1, .int 2]] = ⟨[.int 1, .int 2], none, none⟩ := rfl
example : Token.init [.str "a"] = ⟨[.str "a"], none, none⟩ := rfl
example :
    ((Token.init [.int 7]).set_columns [⟨id⟩]).set_context_id 2
      = ⟨[.int 7], some [⟨id⟩], some 2⟩ := rfl

/-! ### Injectivity of `toString : Int → String`

The context keys are `str(context_id + i)`; to show that distinct indices
produce distinct dict keys we prove that the decimal rendering used by
`toString` is injective, via an explicit parse-back function. -/

/-- The numeric value of a decimal digit character. -/
def digitVal (ch : Char) : Nat := ch.toNat - 48

/-- Decimal digit list of a natural number, most significant digit first:
a fuel-free restatement of `Nat.toDigits 10`. -/
def decList (n : Nat) : List Char :=
  if n < 10 then [Nat.digitChar n]
  else decList (n / 10) ++ [Nat.digitChar (n % 10)]
termination_by n
decreasing_by exact Nat.div_lt_self (by omega) (by norm_num)

theorem decList_toDigitsCore (fuel : Nat) :
    ∀ (n : Nat) (acc : List Char), n < fuel →
      Nat.toDigitsCore 10 fuel n acc = decList n ++ acc := by
  induction fuel with
  | zero => intro n acc h; omega
  | succ f ih =>
    intro n acc h
    rw [Nat.toDigitsCore]
    by_cases h10 : n / 10 = 0
    · have hn : n < 10 := by omega
      rw [if_pos h10, decList, if_pos hn, Nat.mod_eq_of_lt hn]
      simp
    · have h9 : ¬ n < 10 := by omega
      have hlt : n / 10 < f := by omega
      rw [if_neg h10, ih (n / 10) (Nat.digitChar (n % 10) :: acc) hlt]
      conv_rhs => rw [decList]
      rw [if_neg h9]
      simp

theorem decList_toDigits (n : Nat) : Nat.toDigits 10 n = decList n := by
  rw [Nat.toDigits, decList_toDigitsCore (n + 1) n [] (Nat.lt_succ_self n)]
  simp

/-- Parse a most-significant-first decimal digit list back to a number. -/
def parseDec (l : List Char) : Nat :=
  l.foldl (fun a ch => 10 * a + digitVal ch) 0

theorem parseDec_foldl_append (a : Nat) (xs : List Char) (ch : Char) :
    List.foldl (fun a ch => 10 * a + digitVal ch) a (xs ++ [ch])
      = 10 * List.foldl (fun a ch => 10 * a + digitVal ch) a xs + digitVal ch := by
  rw [List.foldl_append]
  rfl

theorem digitVal_digitChar : ∀ d, d < 10 → digitVal (Nat.digitChar d) = d := by
  decide

theorem parseDec_decList (n : Nat) : parseDec (decList n) = n := by
  induction n using Nat.strong_induction_on with
  | _ n ih =>
    rw [decList]
    by_cases hn : n < 10
    · rw [if_pos hn]
      show 10 * 0 + digitVal (Nat.digitChar n) = n
      rw [digitVal_digitChar n hn]
      omega
    · have hlt : n / 10 < n := Nat.div_lt_self (by omega) (by norm_num)
      rw [if_neg hn]
      show List.foldl _ 0 (decList (n / 10) ++ [Nat.digitChar (n % 10)]) = n
      rw [parseDec_foldl_append, digitVal_digitChar (n % 10) (by omega)]
      have := ih (n / 10) hlt
      rw [parseDec] at this
      rw [this]
      omega

theorem decList_injective : Function.Injective decList :=
  Function.LeftInverse.injective parseDec_decList

theorem decList_mem (n : Nat) :
    ∀ ch ∈ decList n, ∃ d, d < 10 ∧ ch = Nat.digitChar d := by
  induction n using Nat.strong_induction_on with
  | _ n ih =>
    rw [decList]
    by_cases hn : n < 10
    · rw [if_pos hn]
      intro ch hch
      exact ⟨n, hn, (List.mem_singleton.mp hch)⟩
    · have hlt : n / 10 < n := Nat.div_lt_self (by omega) (by norm_num)
      rw [if_neg hn]
      intro ch hch
      rcases List.mem_append.mp hch with h | h
      · exact ih (n / 10) hlt ch h
      · exact ⟨n % 10, by omega, List.mem_singleton.mp h⟩

theorem digitChar_ne_minus : ∀ d, d < 10 → Nat.digitChar d ≠ '-' := by
  decide

theorem minus_not_mem_decList (n : Nat) : '-' ∉ decList n := by
  intro hmem
  obtain ⟨d, hd, hch⟩ := decList_mem n '-' hmem
  exact digitChar_ne_minus d hd hch.symm

theorem natRepr_data (n : Nat) : (Nat.repr n).data = decList n := by
  rw [Nat.repr, decList_toDigits]
  rfl

theorem natRepr_injective : Function.Injective Nat.repr := by
  intro a b h
  exact decList_injective ((natRepr_data a) ▸ (natRepr_data b) ▸ congrArg String.data h)

theorem intToString_ofNat (m : Nat) : toString (Int.ofNat m) = Nat.repr m := rfl

theorem intToString_negSucc_data (m : Nat) :
    (toString (Int.negSucc m)).data = '-' :: decList (m + 1) := by
  show ("-" ++ Nat.repr (m + 1)).data = '-' :: decList (m + 1)
  rw [String.data_append, natRepr_data]
  rfl

theorem intToString_injective : Function.Injective (toString : Int → String) := by
  intro a b h
  cases a with
  | ofNat a =>
    cases b with
    | ofNat b =>
      exact congrArg Int.ofNat (natRepr_injective h)
    | negSucc b =>
      exfalso
      have hd : (Nat.repr a).data = '-' :: decList (b + 1) := by
        rw [← intToString_negSucc_data b, ← h]; rfl
      rw [natRepr_data] at hd
      exact minus_not_mem_decList a (hd ▸ List.mem_cons_self '-' (decList (b + 1)))
  | negSucc a =>
    cases b with
    | ofNat b =>
      exfalso
      have hd : (Nat.repr b).data = '-' :: decList (a + 1) := by
        rw [← intToString_negSucc_data a, h]; rfl
      rw [natRepr_data] at hd
      exact minus_not_mem_decList b (hd ▸ List.mem_cons_self '-' (decList (a + 1)))
    | negSucc b =>
      have hd := (intToString_negSucc_data a) ▸ (intToString_negSucc_data b) ▸
        congrArg String.data h
      have hab : decList (a + 1) = decList (b + 1) := by
        injection hd
      have hab' : a + 1 = b + 1 := decList_injective hab
      have : a = b := by omega
      exact congrArg Int.negSucc this

theorem intToString_ne (a b : Int) (h : a ≠ b) : toString a ≠ toString b :=
  fun hs => h (intToString_injective hs)

/-! ### The millisecond value stored by `MinTimeUUID`/`MaxTimeUUID`

`long(((value - epoch).total_seconds() - offset) * 1000)` is exactly the
truncating integer division of the corrected microsecond count by 1000. -/

theorem pyLong_intCast_div_natCast (m : Int) (n : Nat) (hn : 0 < n) :
    pyLong ((m : ℚ) / (n : ℚ)) = m.tdiv n := by
  rcases le_or_lt 0 m with hm | hm
  · have hx : (0 : ℚ) ≤ (m : ℚ) / (n : ℚ) :=
      div_nonneg (by exact_mod_cast hm) (by positivity)
    rw [pyLong, if_pos hx, Rat.floor_intCast_div_natCast]
    exact (Int.tdiv_eq_ediv hm (by positivity)).symm
  · have hx : ((m : ℚ) / (n : ℚ)) < 0 :=
      div_neg_of_neg_of_pos (by exact_mod_cast hm) (by exact_mod_cast hn)
    rw [pyLong, if_neg (not_le.mpr hx)]
    have hcast : -((m : ℚ) / (n : ℚ)) = ((-m : ℤ) : ℚ) / (n : ℚ) := by
      push_cast
      ring
    rw [hcast, Rat.floor_intCast_div_natCast]
    have hneg : (-m).tdiv n = (-m) / (n : ℤ) :=
      Int.tdiv_eq_ediv (by omega) (by positivity)
    rw [← hneg, Int.neg_tdiv, neg_neg]

/-- The exact value of the millisecond expression computed inside
`MinTimeUUID.update_context` / `MaxTimeUUID.update_context`. -/
theorem pyLong_timeuuid (d : Datetime) :
    pyLong ((total_seconds (dtSub d { naiveMicros := 0, tz := d.tz })
        - tzOffsetSeconds d.tz) * 1000)
      = (d.naiveMicros - (d.tz.getD 0) * 1000000).tdiv 1000 := by
  have h1 : dtSub d { naiveMicros := 0, tz := d.tz } = d.naiveMicros := by
    simp [dtSub, Datetime.utcMicros]
  rw [h1]
  have h2 : (total_seconds d.naiveMicros - tzOffsetSeconds d.tz) * 1000
      = ((d.naiveMicros - (d.tz.getD 0) * 1000000 : ℤ) : ℚ) / ((1000 : ℕ) : ℚ) := by
    cases htz : d.tz with
    | none =>
      simp only [tzOffsetSeconds, total_seconds, Option.getD]
      push_cast
      field_simp
      ring
    | some o =>
      simp only [tzOffsetSeconds, total_seconds, Option.getD]
      push_cast
      field_simp
      ring
  rw [h2, pyLong_intCast_div_natCast _ 1000 (by norm_num)]
  norm_cast

/-- `MinTimeUUID.update_context` in closed form: one dict write, at
`str(context_id)`, of the truncated corrected millisecond count. -/
theorem minTimeUUID_update_context_eq (f : MinTimeUUID) (ctx : Ctx) :
    f.update_context ctx = ctxInsert ctx (pyStr f.context_id)
      (.int ((f.value.naiveMicros - (f.value.tz.getD 0) * 1000000).tdiv 1000)) := by
  simp only [MinTimeUUID.update_context]
  rw [pyLong_timeuuid]

/-- `MaxTimeUUID.update_context` in closed form. -/
theorem maxTimeUUID_update_context_eq (f : MaxTimeUUID) (ctx : Ctx) :
    f.update_context ctx = ctxInsert ctx (pyStr f.context_id)
      (.int ((f.value.naiveMicros - (f.value.tz.getD 0) * 1000000).tdiv 1000)) := by
  simp only [MaxTimeUUID.update_context]
  rw [pyLong_timeuuid]

/-! ### The dict writes performed by `Token.update_context` -/

theorem writeLoop_frame (pairs : List (Column × PyVal)) :
    ∀ (c : Int) (ctx : Ctx) (s : String),
      (∀ j : Nat, j < pairs.length → s ≠ toString (c + (j : Int))) →
      Token.writeLoop c pairs ctx s = ctx s := by
  induction pairs with
  | nil =>
    intro c ctx s _
    rfl
  | cons p rest ih =>
    intro c ctx s hs
    obtain ⟨col, v⟩ := p
    have hrest : ∀ j : Nat, j < rest.length → s ≠ toString ((c + 1) + (j : Int)) := by
      intro j hj
      have hj' : j + 1 < (⟨col, v⟩ :: rest : List (Column × PyVal)).length := by
        simp only [List.length_cons]
        omega
      have := hs (j + 1) hj'
      have harith : c + ((j + 1 : ℕ) : Int) = (c + 1) + (j : Int) := by
        push_cast
        ring
      rw [harith] at this
      exact this
    rw [Token.writeLoop, ih (c + 1) (ctxInsert ctx (toString c) (col.to_database v)) s hrest]
    have h0 : s ≠ toString c := by
      have := hs 0 (by simp)
      simpa using this
    simp only [ctxInsert]
    rw [if_neg h0]

theorem writeLoop_lookup (pairs : List (Column × PyVal)) :
    ∀ (c : Int) (ctx : Ctx) (i : Nat) (hi : i < pairs.length),
      Token.writeLoop c pairs ctx (toString (c + (i : Int)))
        = some ((pairs.get ⟨i, hi⟩).1.to_database (pairs.get ⟨i, hi⟩).2) := by
  induction pairs with
  | nil =>
    intro c ctx i hi
    simp at hi
  | cons p rest ih =>
    intro c ctx i hi
    obtain ⟨col, v⟩ := p
    cases i with
    | zero =>
      have hkey : c + ((0 : ℕ) : Int) = c := by simp
      rw [Token.writeLoop, hkey]
      rw [writeLoop_frame rest (c + 1) _ (toString c)
        (fun j _ => intToString_ne c ((c + 1) + (j : Int)) (by omega))]
      simp only [ctxInsert]
      simp [List.get]
    | succ i' =>
      have hi' : i' < rest.length := by
        simp only [List.length_cons] at hi
        omega
      have hkey : c + ((i' + 1 : ℕ) : Int) = (c + 1) + (i' : Int) := by
        push_cast
        ring
      rw [Token.writeLoop, hkey, ih (c + 1) _ i' hi']
      rfl

/-- `Token.update_context` with bound columns and an assigned context id in
closed form: it always succeeds and performs the `writeLoop` writes over the
zip of the columns with the payload (no length check whatsoever). -/
theorem token_update_context_eq (t : Token) (c : Int) (cols : List Column)
    (hc : t.context_id = some c) (hcols : t._columns = some cols) (ctx : Ctx) :
    t.update_context ctx = .ok (Token.writeLoop c (cols.zip t.value) ctx) := by
  simp only [Token.update_context, hcols, hc]
  cases hz : cols.zip t.value with
  | nil => rfl
  | cons p rest => rfl

example :
    Token.update_context ⟨[.int 7], some [⟨id⟩], some 2⟩ ctxEmpty
      = .ok (ctxInsert ctxEmpty "2" (.int 7)) := rfl

/-! ### Shared corollaries for the time-range bounds -/

theorem pyLong_timeuuid_seconds (d : Datetime) :
    pyLong (total_seconds (dtSub d { naiveMicros := 0, tz := d.tz })
        - tzOffsetSeconds d.tz)
      = (d.naiveMicros - (d.tz.getD 0) * 1000000).tdiv 1000000 := by
  have h1 : dtSub d { naiveMicros := 0, tz := d.tz } = d.naiveMicros := by
    simp [dtSub, Datetime.utcMicros]
  rw [h1]
  have h2 : total_seconds d.naiveMicros - tzOffsetSeconds d.tz
      = ((d.naiveMicros - (d.tz.getD 0) * 1000000 : ℤ) : ℚ) / ((1000000 : ℕ) : ℚ) := by
    cases htz : d.tz with
    | none =>
      simp only [tzOffsetSeconds, total_seconds, Option.getD]
      push_cast
      field_simp
    | some o =>
      simp only [tzOffsetSeconds, total_seconds, Option.getD]
      push_cast
      field_simp
      try ring
  rw [h2, pyLong_intCast_div_natCast _ 1000000 (by norm_num)]
  norm_cast

/-- With an assigned context id, `MinTimeUUID` binds the truncated UTC
millisecond reading of its timestamp at key `str(context_id)`. -/
theorem minTimeUUID_stored (d : Datetime) (c : Int) (ctx : Ctx) :
    MinTimeUUID.update_context ⟨d, some c⟩ ctx (toString c)
      = some (.int (d.utcMicros.tdiv 1000)) := by
  rw [minTimeUUID_update_context_eq]
  simp [ctxInsert, pyStr, Datetime.utcMicros]

/-- Same statement for `MaxTimeUUID` (identical code). -/
theorem maxTimeUUID_stored (d : Datetime) (c : Int) (ctx : Ctx) :
    MaxTimeUUID.update_context ⟨d, some c⟩ ctx (toString c)
      = some (.int (d.utcMicros.tdiv 1000)) := by
  rw [maxTimeUUID_update_context_eq]
  simp [ctxInsert, pyStr, Datetime.utcMicros]

/-! ### Claim C1 -/

/-- C1 counterexample: for the naive timestamp 1970-01-01T00:00:01.500000
(naive microseconds 1500000) with context id 0, both bound variants store
1500 (truncation happens after the ×1000 scaling), while the claim's
truncate-then-multiply formula yields 1000. -/
theorem C1_counterexample :
    MinTimeUUID.update_context ⟨⟨1500000, none⟩, some 0⟩ ctxEmpty "0"
        = some (.int 1500)
      ∧ MaxTimeUUID.update_context ⟨⟨1500000, none⟩, some 0⟩ ctxEmpty "0"
        = some (.int 1500)
      ∧ claimedMillisecondsC1 ⟨1500000, none⟩ = 1000
      ∧ (1500 : Int) ≠ 1000 := by
  refine ⟨?_, ?_, ?_, by decide⟩
  · rw [minTimeUUID_update_context_eq]
    rfl
  · rw [maxTimeUUID_update_context_eq]
    rfl
  · simp only [claimedMillisecondsC1]
    rw [pyLong_timeuuid_seconds]
    rfl

/-- C1 (amended): for every time-range bound over a timestamp with assigned
context id, populate stores at `context[str(contextId)]` the integer obtained
by truncating toward zero AFTER multiplying by 1000, i.e.
`trunc(((inputTimestamp - epoch).totalSeconds() - offsetSeconds) * 1000)`,
which equals the truncating division of the offset-corrected microsecond
count by 1000. Epoch and offset are as the claim states them. -/
theorem C1_stores_truncated_scaled_ms (fmin : MinTimeUUID) (fmax : MaxTimeUUID)
    (cmin cmax : Int) (hmin : fmin.context_id = some cmin)
    (hmax : fmax.context_id = some cmax) (ctx1 ctx2 : Ctx) :
    fmin.update_context ctx1 (toString cmin)
        = some (.int ((fmin.value.naiveMicros
            - (fmin.value.tz.getD 0) * 1000000).tdiv 1000))
      ∧ fmax.update_context ctx2 (toString cmax)
        = some (.int ((fmax.value.naiveMicros
            - (fmax.value.tz.getD 0) * 1000000).tdiv 1000)) := by
  constructor
  · rw [minTimeUUID_update_context_eq, hmin]
    simp [ctxInsert, pyStr]
  · rw [maxTimeUUID_update_context_eq, hmax]
    simp [ctxInsert, pyStr]

theorem C1_stores_truncated_scaled_ms_witness :
    (⟨⟨1500000, none⟩, some 0⟩ : MinTimeUUID).context_id = some 0
      ∧ (⟨⟨-1500, some 3600⟩, some 5⟩ : MaxTimeUUID).context_id = some 5
      ∧ ((⟨⟨1500000, none⟩, some 0⟩ : MinTimeUUID).update_context ctxEmpty
            (toString (0 : Int))
          = some (.int ((1500000 - (((none : Option Int)).getD 0) * 1000000).tdiv 1000))
        ∧ (⟨⟨-1500, some 3600⟩, some 5⟩ : MaxTimeUUID).update_context ctxEmpty
            (toString (5 : Int))
          = some (.int ((-1500 - (((some 3600 : Option Int)).getD 0) * 1000000).tdiv 1000))) :=
  ⟨rfl, rfl, C1_stores_truncated_scaled_ms ⟨⟨1500000, none⟩, some 0⟩
    ⟨⟨-1500, some 3600⟩, some 5⟩ 0 5 rfl rfl ctxEmpty ctxEmpty⟩

/-! ### Claim C3 -/

/-- C3: two timestamps denoting the same instant (equal UTC microsecond
readings — e.g. an aware timestamp under a fixed offset and its naive UTC
equivalent) are bound to the same millisecond value by both time-range bound
variants, whatever their assigned context ids and contexts. -/
theorem C3_same_instant_same_binding (d1 d2 : Datetime)
    (h : d1.utcMicros = d2.utcMicros) (c1 c2 : Int) (ctx1 ctx2 : Ctx) :
    MinTimeUUID.update_context ⟨d1, some c1⟩ ctx1 (toString c1)
        = MinTimeUUID.update_context ⟨d2, some c2⟩ ctx2 (toString c2)
      ∧ MaxTimeUUID.update_context ⟨d1, some c1⟩ ctx1 (toString c1)
        = MaxTimeUUID.update_context ⟨d2, some c2⟩ ctx2 (toString c2)
      ∧ MinTimeUUID.update_context ⟨d1, some c1⟩ ctx1 (toString c1)
        = MaxTimeUUID.update_context ⟨d2, some c2⟩ ctx2 (toString c2) := by
  refine ⟨?_, ?_, ?_⟩
  · rw [minTimeUUID_stored, minTimeUUID_stored, h]
  · rw [maxTimeUUID_stored, maxTimeUUID_stored, h]
  · rw [minTimeUUID_stored, maxTimeUUID_stored, h]

theorem C3_same_instant_same_binding_witness :
    (⟨3601250000, some 3600⟩ : Datetime).utcMicros
        = (⟨1250000, none⟩ : Datetime).utcMicros
      ∧ (MinTimeUUID.update_context ⟨⟨3601250000, some 3600⟩, some 0⟩ ctxEmpty
            (toString (0 : Int))
          = MinTimeUUID.update_context ⟨⟨1250000, none⟩, some 7⟩ ctxEmpty
            (toString (7 : Int))
        ∧ MaxTimeUUID.update_context ⟨⟨3601250000, some 3600⟩, some 0⟩ ctxEmpty
            (toString (0 : Int))
          = MaxTimeUUID.update_context ⟨⟨1250000, none⟩, some 7⟩ ctxEmpty
            (toString (7 : Int))
        ∧ MinTimeUUID.update_context ⟨⟨3601250000, some 3600⟩, some 0⟩ ctxEmpty
            (toString (0 : Int))
          = MaxTimeUUID.update_context ⟨⟨1250000, none⟩, some 7⟩ ctxEmpty
            (toString (7 : Int))) :=
  ⟨by decide, C3_same_instant_same_binding ⟨3601250000, some 3600⟩ ⟨1250000, none⟩
    (by decide) 0 7 ctxEmpty ctxEmpty⟩

/-! ### Claim C4 -/

/-- C4 counterexample: for the naive timestamp with 1500 microseconds
(0.0015 s) and context id 0, the code stores `trunc(1.5) = 1`, while the
claim's `round` formula yields 2. -/
theorem C4_counterexample :
    MinTimeUUID.update_context ⟨⟨1500, none⟩, some 0⟩ ctxEmpty "0"
        = some (.int 1)
      ∧ claimedPayloadC4 ⟨1500, none⟩ = 2
      ∧ (1 : Int) ≠ 2 := by
  refine ⟨?_, ?_, by decide⟩
  · rw [minTimeUUID_update_context_eq]
    rfl
  · simp only [claimedPayloadC4, total_seconds]
    have h1 : (((1500 : Int) : ℚ) / 1000000) * 1000 = 3 / 2 := by norm_num
    rw [h1, round_eq]
    have h2 : (3 : ℚ) / 2 + 1 / 2 = ((2 : ℤ) : ℚ) := by norm_num
    rw [h2, Int.floor_intCast]

/-- C4 (amended): for every naive timestamp with assigned context id, the
lower- and upper-bound binders store identical millisecond payloads, equal to
the TRUNCATION toward zero of `secondsSinceEpoch * 1000` (the truncating
division of the microsecond count by 1000), not its rounding; the two
variants differ only in their rendered text, which is `MinTimeUUID(:id)`
resp. `MaxTimeUUID(:id)`. -/
theorem C4_naive_min_max_agree (d : Datetime) (c : Int) (htz : d.tz = none)
    (ctx1 ctx2 : Ctx) :
    MinTimeUUID.update_context ⟨d, some c⟩ ctx1 (toString c)
        = some (.int (d.naiveMicros.tdiv 1000))
      ∧ MaxTimeUUID.update_context ⟨d, some c⟩ ctx2 (toString c)
        = some (.int (d.naiveMicros.tdiv 1000))
      ∧ MinTimeUUID.render ⟨d, some c⟩ = "MinTimeUUID(:" ++ toString c ++ ")"
      ∧ MaxTimeUUID.render ⟨d, some c⟩ = "MaxTimeUUID(:" ++ toString c ++ ")" := by
  have hu : d.utcMicros = d.naiveMicros := by
    simp [Datetime.utcMicros, htz]
  exact ⟨by rw [minTimeUUID_stored, hu], by rw [maxTimeUUID_stored, hu], rfl, rfl⟩

theorem C4_naive_min_max_agree_witness :
    (⟨1500, none⟩ : Datetime).tz = none
      ∧ (MinTimeUUID.update_context ⟨⟨1500, none⟩, some 0⟩ ctxEmpty
            (toString (0 : Int)) = some (.int ((1500 : Int).tdiv 1000))
        ∧ MaxTimeUUID.update_context ⟨⟨1500, none⟩, some 0⟩ ctxEmpty
            (toString (0 : Int)) = some (.int ((1500 : Int).tdiv 1000))
        ∧ MinTimeUUID.render ⟨⟨1500, none⟩, some 0⟩
            = "MinTimeUUID(:" ++ toString (0 : Int) ++ ")"
        ∧ MaxTimeUUID.render ⟨⟨1500, none⟩, some 0⟩
            = "MaxTimeUUID(:" ++ toString (0 : Int) ++ ")") :=
  ⟨rfl, C4_naive_min_max_agree ⟨1500, none⟩ 0 rfl ctxEmpty ctxEmpty⟩

/-! ### Claim C6 -/

/-- C6: constructing either time-range bound with an argument that is not a
`datetime` instance fails synchronously at construction with the
validation error (the spec's `InvalidArgument`). -/
theorem C6_non_datetime_rejected (v : PyVal) (h : v.isDatetime = false) :
    MinTimeUUID.init v = .error .validationError
      ∧ MaxTimeUUID.init v = .error .validationError := by
  cases v <;> simp_all [PyVal.isDatetime, MinTimeUUID.init, MaxTimeUUID.init]

theorem C6_non_datetime_rejected_witness :
    (PyVal.int 5).isDatetime = false
      ∧ (MinTimeUUID.init (PyVal.int 5) = .error .validationError
        ∧ MaxTimeUUID.init (PyVal.int 5) = .error .validationError) :=
  ⟨rfl, C6_non_datetime_rejected (PyVal.int 5) rfl⟩

/-! ### Claim C9 -/

/-- C9: `set_context_id` on a value whose context id is already assigned
silently overwrites the previous id (the setter is total — there is no check
and no failure path in the model, matching the unconditional assignment in
the code), and subsequent render and populate use the most recent id. -/
theorem C9_reassign_overwrites (q : QueryValue) (a b : Int) (ctx : Ctx) :
    (q.set_context_id a).set_context_id b = q.set_context_id b
      ∧ ((q.set_context_id a).set_context_id b).context_id = some b
      ∧ ((q.set_context_id a).set_context_id b).render = ":" ++ toString b
      ∧ ((q.set_context_id a).set_context_id b).update_context ctx
          = ctxInsert ctx (toString b) q.value :=
  ⟨rfl, rfl, rfl, rfl⟩

/-! ### Claim C10 -/

/-- C10: the single-argument unwrapping in `Token.__init__` fires exactly for
a `list` or `tuple` argument; a single argument of any other type is kept
wrapped, giving a one-element payload with context size 1. -/
theorem C10_unwrap_only_list_tuple (v : PyVal) (h : v.isListOrTuple = false)
    (xs : List PyVal) :
    (Token.init [v]).value = [v]
      ∧ (Token.init [v]).get_context_size = 1
      ∧ (Token.init [PyVal.list xs]).value = xs
      ∧ (Token.init [PyVal.tuple xs]).value = xs := by
  refine ⟨?_, ?_, rfl, rfl⟩ <;>
    cases v <;> simp_all [PyVal.isListOrTuple, Token.init, Token.get_context_size]

theorem C10_unwrap_only_list_tuple_witness :
    (PyVal.str "us-east").isListOrTuple = false
      ∧ ((Token.init [PyVal.str "us-east"]).value = [PyVal.str "us-east"]
        ∧ (Token.init [PyVal.str "us-east"]).get_context_size = 1
        ∧ (Token.init [PyVal.list [PyVal.int 1]]).value = [PyVal.int 1]
        ∧ (Token.init [PyVal.tuple [PyVal.int 1]]).value = [PyVal.int 1]) :=
  ⟨rfl, C10_unwrap_only_list_tuple (PyVal.str "us-east") rfl [PyVal.int 1]⟩

/-! ### Claim C7 -/

/-- C7 counterexample: take `xs = [[1, 2]]`, a one-element sequence whose
sole element is itself a list. Constructing from the single sequence
argument `xs` keeps the inner list as one payload element, while
constructing variadically from the elements of `xs` triggers the unwrapping
again and produces a two-element payload. -/
theorem C7_counterexample :
    (Token.init [PyVal.list [PyVal.list [PyVal.int 1, PyVal.int 2]]]).value
      ≠ (Token.init [PyVal.list [PyVal.int 1, PyVal.int 2]]).value := by
  have h1 : (Token.init [PyVal.list [PyVal.list [PyVal.int 1, PyVal.int 2]]]).value
      = [PyVal.list [PyVal.int 1, PyVal.int 2]] := rfl
  have h2 : (Token.init [PyVal.list [PyVal.int 1, PyVal.int 2]]).value
      = [PyVal.int 1, PyVal.int 2] := rfl
  rw [h1, h2]
  intro h
  have := congrArg List.length h
  simp at this

/-- C7 (amended): constructing a token from a single sequence argument `xs`
and constructing it variadically from the elements of `xs` yield the same
payload (hence the same context size), EXCEPT when `xs` is a one-element
sequence whose sole element is itself a list or tuple (then the variadic
call unwraps a second time). -/
theorem C7_construction_shapes_agree (xs : List PyVal)
    (h : ∀ y, xs = [y] → y.isListOrTuple = false) :
    (Token.init [PyVal.list xs]).value = (Token.init xs).value
      ∧ (Token.init [PyVal.tuple xs]).value = (Token.init xs).value
      ∧ (Token.init [PyVal.list xs]).get_context_size
          = (Token.init xs).get_context_size := by
  have hval : (Token.init xs).value = xs := by
    rcases xs with _ | ⟨y, _ | ⟨y2, rest⟩⟩
    · rfl
    · cases y with
      | list l =>
        have := h (PyVal.list l) rfl
        simp [PyVal.isListOrTuple] at this
      | tuple l =>
        have := h (PyVal.tuple l) rfl
        simp [PyVal.isListOrTuple] at this
      | int n => rfl
      | str s => rfl
      | datetime d => rfl
    · cases y <;> rfl
  have hlist : (Token.init [PyVal.list xs]).value = xs := rfl
  have htuple : (Token.init [PyVal.tuple xs]).value = xs := rfl
  refine ⟨by rw [hlist, hval], by rw [htuple, hval], ?_⟩
  show (Token.init [PyVal.list xs]).value.length = (Token.init xs).value.length
  rw [hlist, hval]

theorem C7_construction_shapes_agree_witness :
    (∀ y, ([PyVal.int 1, PyVal.int 2] : List PyVal) = [y]
        → y.isListOrTuple = false)
      ∧ ((Token.init [PyVal.list [PyVal.int 1, PyVal.int 2]]).value
            = (Token.init [PyVal.int 1, PyVal.int 2]).value
        ∧ (Token.init [PyVal.tuple [PyVal.int 1, PyVal.int 2]]).value
            = (Token.init [PyVal.int 1, PyVal.int 2]).value
        ∧ (Token.init [PyVal.list [PyVal.int 1, PyVal.int 2]]).get_context_size
            = (Token.init [PyVal.int 1, PyVal.int 2]).get_context_size) :=
  ⟨fun y hy => by simp at hy,
    C7_construction_shapes_agree [PyVal.int 1, PyVal.int 2]
      (fun y hy => by simp at hy)⟩

/-! ### Claims C5, C2, C8: the token writes -/

theorem writeLoop_zip_lookup (cols : List Column) (vals : List PyVal)
    (c : Int) (ctx : Ctx) (i : Nat) (hi : i < (cols.zip vals).length) :
    ∃ col v, cols[i]? = some col ∧ vals[i]? = some v
      ∧ Token.writeLoop c (cols.zip vals) ctx (toString (c + (i : Int)))
        = some (col.to_database v) := by
  have hlook := writeLoop_lookup (cols.zip vals) c ctx i hi
  have hget : (cols.zip vals)[i]? = some ((cols.zip vals).get ⟨i, hi⟩) := by
    rw [List.getElem?_eq_getElem hi, List.get_eq_getElem]
  have hsplit := (List.getElem?_zip_eq_some).mp hget
  exact ⟨_, _, hsplit.1, hsplit.2, hlook⟩

/-- C5: for a token with `n` payload values, `n` bound column descriptors
and assigned context id `c`, `render` yields `token(` followed by the `n`
comma-joined markers `:c .. :c+n-1` and `)`, and populate succeeds, writing
entry `i` as `columnDescriptor[i].to_database(payload[i])` at key
`str(c + i)` for every `i < n` and touching no other key. -/
theorem C5_token_render_populate (t : Token) (c : Int) (cols : List Column)
    (n : Nat) (hc : t.context_id = some c) (hcols : t._columns = some cols)
    (hn : t.value.length = n) (hlen : cols.length = n) (ctx : Ctx) :
    t.render = .ok ("token(" ++ String.intercalate ", "
        ((List.range n).map fun i => ":" ++ toString (c + (i : Int))) ++ ")")
      ∧ ∃ ctx', t.update_context ctx = .ok ctx'
        ∧ (∀ i : Nat, i < n → ∃ col v, cols[i]? = some col
            ∧ t.value[i]? = some v
            ∧ ctx' (toString (c + (i : Int))) = some (col.to_database v))
        ∧ (∀ s : String, (∀ i : Nat, i < n → s ≠ toString (c + (i : Int)))
            → ctx' s = ctx s) := by
  have hzlen : (cols.zip t.value).length = n := by
    rw [List.length_zip, hlen, hn, Nat.min_self]
  constructor
  · simp only [Token.render, hc, hn]
    cases n with
    | zero => rfl
    | succ m => rfl
  · refine ⟨Token.writeLoop c (cols.zip t.value) ctx,
      token_update_context_eq t c cols hc hcols ctx, ?_, ?_⟩
    · intro i hi
      exact writeLoop_zip_lookup cols t.value c ctx i (by rw [hzlen]; exact hi)
    · intro s hs
      exact writeLoop_frame (cols.zip t.value) c ctx s
        (fun j hj => hs j (by rw [hzlen] at hj; exact hj))

theorem C5_token_render_populate_witness :
    (⟨[PyVal.int 7, PyVal.str "us-east"], some [idColumn, idColumn],
          some 2⟩ : Token).context_id = some 2
      ∧ (⟨[PyVal.int 7, PyVal.str "us-east"], some [idColumn, idColumn],
          some 2⟩ : Token)._columns = some [idColumn, idColumn]
      ∧ (⟨[PyVal.int 7, PyVal.str "us-east"], some [idColumn, idColumn],
          some 2⟩ : Token).value.length = 2
      ∧ ([idColumn, idColumn] : List Column).length = 2
      ∧ ((⟨[PyVal.int 7, PyVal.str "us-east"], some [idColumn, idColumn],
            some 2⟩ : Token).render
          = .ok ("token(" ++ String.intercalate ", "
              ((List.range 2).map fun i => ":" ++ toString ((2 : Int) + (i : Int))) ++ ")")
        ∧ ∃ ctx', (⟨[PyVal.int 7, PyVal.str "us-east"], some [idColumn, idColumn],
              some 2⟩ : Token).update_context ctxEmpty = .ok ctx'
          ∧ (∀ i : Nat, i < 2 → ∃ col v, ([idColumn, idColumn] : List Column)[i]? = some col
              ∧ (⟨[PyVal.int 7, PyVal.str "us-east"], some [idColumn, idColumn],
                  some 2⟩ : Token).value[i]? = some v
              ∧ ctx' (toString ((2 : Int) + (i : Int))) = some (col.to_database v))
          ∧ (∀ s : String, (∀ i : Nat, i < 2 → s ≠ toString ((2 : Int) + (i : Int)))
              → ctx' s = ctxEmpty s)) :=
  ⟨rfl, rfl, rfl, rfl, C5_token_render_populate
    ⟨[PyVal.int 7, PyVal.str "us-east"], some [idColumn, idColumn], some 2⟩
    2 [idColumn, idColumn] 2 rfl rfl rfl rfl ctxEmpty⟩

/-- C2 counterexample: a token with two payload values but only one bound
column descriptor and context id 0. Contrary to the claim, populate does not
fail at all: it succeeds, silently truncating to the shorter sequence, and
it mutates the context (key "0" goes from absent to bound). -/
theorem C2_counterexample :
    (⟨[PyVal.int 1, PyVal.int 2], some [idColumn], some 0⟩ : Token).update_context
          ctxEmpty
        = .ok (ctxInsert ctxEmpty "0" (PyVal.int 1))
      ∧ ctxInsert ctxEmpty "0" (PyVal.int 1) "0" = some (PyVal.int 1)
      ∧ ctxEmpty "0" = none :=
  ⟨rfl, rfl, rfl⟩

/-- C2 (amended): `Token.update_context` performs no count validation at
all. If the column bindings were never supplied, it fails — with the
`TypeError` coming out of `zip(None, ...)`, not a `PreconditionViolation` —
and produces no context, so no mutation is observable in that case. If
bindings are supplied, it never fails regardless of any count mismatch: it
writes exactly the entries of the zip of the two lists, i.e.
`min(columnCount, payloadLength)` entries at keys `str(c) ..`, leaving every
other key untouched — so on a count mismatch a partial write is observable. -/
theorem C2_no_length_validation (t : Token) (ctx : Ctx) :
    (t._columns = none → t.update_context ctx = .error .typeError)
      ∧ (∀ c cols, t.context_id = some c → t._columns = some cols →
          ∃ ctx', t.update_context ctx = .ok ctx'
            ∧ (∀ i : Nat, i < min cols.length t.value.length →
                ∃ col v, cols[i]? = some col ∧ t.value[i]? = some v
                  ∧ ctx' (toString (c + (i : Int))) = some (col.to_database v))
            ∧ (∀ s : String,
                (∀ i : Nat, i < min cols.length t.value.length
                  → s ≠ toString (c + (i : Int))) → ctx' s = ctx s)) := by
  constructor
  · intro h
    simp only [Token.update_context, h]
  · intro c cols hc hcols
    have hzlen : (cols.zip t.value).length = min cols.length t.value.length :=
      List.length_zip cols t.value
    refine ⟨Token.writeLoop c (cols.zip t.value) ctx,
      token_update_context_eq t c cols hc hcols ctx, ?_, ?_⟩
    · intro i hi
      exact writeLoop_zip_lookup cols t.value c ctx i (by rw [hzlen]; exact hi)
    · intro s hs
      exact writeLoop_frame (cols.zip t.value) c ctx s
        (fun j hj => hs j (by rw [hzlen] at hj; exact hj))

theorem C2_no_length_validation_witness :
    (⟨[PyVal.int 1], none, none⟩ : Token)._columns = none
      ∧ (⟨[PyVal.int 1], none, none⟩ : Token).update_context ctxEmpty
          = .error .typeError :=
  ⟨rfl, (C2_no_length_validation ⟨[PyVal.int 1], none, none⟩ ctxEmpty).1 rfl⟩

/-- C8: populate is a pure transformation of the passed-in context that adds
or overwrites keys only inside the window of stringified ids
`[contextId, contextId + contextSize())`: any key outside that window keeps
the binding it had before the call, for the base `QueryValue`, both
time-range bounds, and `Token` (whenever its populate succeeds). -/
theorem C8_populate_frame (q : QueryValue) (fmin : MinTimeUUID)
    (fmax : MaxTimeUUID) (t : Token) (cq c1 c2 ct : Int)
    (hq : q.context_id = some cq) (h1 : fmin.context_id = some c1)
    (h2 : fmax.context_id = some c2) (ht : t.context_id = some ct)
    (ctx : Ctx) (s : String) :
    (outsideKeys cq q.get_context_size s → q.update_context ctx s = ctx s)
      ∧ (outsideKeys c1 fmin.get_context_size s
          → fmin.update_context ctx s = ctx s)
      ∧ (outsideKeys c2 fmax.get_context_size s
          → fmax.update_context ctx s = ctx s)
      ∧ (∀ ctx', t.update_context ctx = .ok ctx' →
          outsideKeys ct t.get_context_size s → ctx' s = ctx s) := by
  refine ⟨?_, ?_, ?_, ?_⟩
  · intro hout
    have hne : s ≠ toString cq := hout cq (le_refl cq) (by simp [QueryValue.get_context_size])
    simp only [QueryValue.update_context, hq, ctxInsert, pyStr]
    rw [if_neg hne]
  · intro hout
    have hne : s ≠ toString c1 :=
      hout c1 (le_refl c1) (by simp [MinTimeUUID.get_context_size])
    rw [minTimeUUID_update_context_eq, h1]
    simp only [ctxInsert, pyStr]
    rw [if_neg hne]
  · intro hout
    have hne : s ≠ toString c2 :=
      hout c2 (le_refl c2) (by simp [MaxTimeUUID.get_context_size])
    rw [maxTimeUUID_update_context_eq, h2]
    simp only [ctxInsert, pyStr]
    rw [if_neg hne]
  · intro ctx' hok hout
    cases hcols : t._columns with
    | none =>
      rw [Token.update_context, hcols] at hok
      cases hok
    | some cols =>
      rw [token_update_context_eq t ct cols ht hcols ctx] at hok
      cases hok
      apply writeLoop_frame
      intro j hj
      have hjlt : (j : Int) < (t.get_context_size : Int) := by
        have : (cols.zip t.value).length ≤ t.value.length := by
          rw [List.length_zip]
          omega
        have : j < t.value.length := by omega
        simp only [Token.get_context_size]
        exact_mod_cast this
      exact hout (ct + (j : Int)) (by omega) (by omega)

theorem C8_populate_frame_witness :
    (⟨PyVal.int 9, some 0⟩ : QueryValue).context_id = some 0
      ∧ (⟨⟨1000000, none⟩, some 1⟩ : MinTimeUUID).context_id = some 1
      ∧ (⟨⟨1000000, none⟩, some 2⟩ : MaxTimeUUID).context_id = some 2
      ∧ (⟨[PyVal.int 7], some [idColumn], some 3⟩ : Token).context_id = some 3
      ∧ ((outsideKeys 0 (⟨PyVal.int 9, some 0⟩ : QueryValue).get_context_size "k"
            → (⟨PyVal.int 9, some 0⟩ : QueryValue).update_context ctxEmpty "k"
              = ctxEmpty "k")
        ∧ (outsideKeys 1 (⟨⟨1000000, none⟩, some 1⟩ : MinTimeUUID).get_context_size "k"
            → (⟨⟨1000000, none⟩, some 1⟩ : MinTimeUUID).update_context ctxEmpty "k"
              = ctxEmpty "k")
        ∧ (outsideKeys 2 (⟨⟨1000000, none⟩, some 2⟩ : MaxTimeUUID).get_context_size "k"
            → (⟨⟨1000000, none⟩, some 2⟩ : MaxTimeUUID).update_context ctxEmpty "k"
              = ctxEmpty "k")
        ∧ (∀ ctx', (⟨[PyVal.int 7], some [idColumn], some 3⟩ : Token).update_context
              ctxEmpty = .ok ctx'
            → outsideKeys 3 (⟨[PyVal.int 7], some [idColumn],
                some 3⟩ : Token).get_context_size "k"
            → ctx' "k" = ctxEmpty "k")) :=
  ⟨rfl, rfl, rfl, rfl, C8_populate_frame ⟨PyVal.int 9, some 0⟩
    ⟨⟨1000000, none⟩, some 1⟩ ⟨⟨1000000, none⟩, some 2⟩
    ⟨[PyVal.int 7], some [idColumn], some 3⟩ 0 1 2 3 rfl rfl rfl rfl ctxEmpty "k"⟩
